import Mathlib

/-!
Shallow embedding of `src/8-Motion_planning-1-Potential_Fields.ipynb`, a potential-fields
reactive-navigation notebook.

Coordinates are embedded as rationals.  The source's Euclidean distances
`r = np.sqrt(np.sum(q**2, axis=0))` and `linalg.norm(GoalError)` enter the control flow
only through the comparisons `r < RadiusOfInfluence` and `norm(GoalError) > 1`; these
are embedded as the equivalent comparisons on squared distances, and the bridging
lemmas `isInfluential_iff_sqrt_lt` and `sqNorm_gt_one_iff` relate the two over `ℝ`.

Shipped state of the notebook code (it is an exercise template with unfilled holes):
  * `repulsive_force` computes `q = xRobot - Map`, `r`, and the influential index set
    `iInfluential = np.where(r < RadiusOfInfluence)[0]`, plots a marker on the
    influential obstacles, but leaves `FRep = None` in both branches.
  * `attractive_force` executes `FAtt = None` followed by `FAtt /= None`, which raises
    `TypeError` on every call, before the `return FAtt` statement.
  * `main` runs `while linalg.norm(GoalError) > 1 and k < nMaxSteps:`; the body calls
    `repulsive_force`, then `attractive_force` (which raises); were that call ever to
    return, the subsequent `FTotal = None` and `xRobot += FTotal` would raise
    `TypeError` as well.
-/

/-- A 2D point / vector (the notebook's 2x1 column vectors), with rational
coordinates. -/
structure Vec2 where
  x : ℚ
  y : ℚ
deriving DecidableEq, Repr

instance : Sub Vec2 := ⟨fun a b => ⟨a.x - b.x, a.y - b.y⟩⟩

theorem Vec2.sub_def (a b : Vec2) : a - b = ⟨a.x - b.x, a.y - b.y⟩ := rfl

/-- Squared Euclidean distance between two points: the source computes
`q = xRobot - Map` column-wise and `r = np.sqrt(np.sum(q**2, axis=0))`; we track
`r ^ 2`. -/
def sqDist (a b : Vec2) : ℚ := (a.x - b.x) ^ 2 + (a.y - b.y) ^ 2

/-- Squared Euclidean norm, `linalg.norm(v) ^ 2`. -/
def sqNorm (v : Vec2) : ℚ := v.x ^ 2 + v.y ^ 2

theorem sqDist_nonneg (a b : Vec2) : 0 ≤ sqDist a b :=
  add_nonneg (sq_nonneg _) (sq_nonneg _)

theorem sqDist_self (a : Vec2) : sqDist a a = 0 := by
  simp [sqDist]

/-- The source's influence test `r < RadiusOfInfluence` with
`r = Real.sqrt (sqDist xRobot obs)`, expressed on the squared distance: for `d ≥ 0`,
`Real.sqrt d < R ↔ 0 ≤ R ∧ d < R ^ 2` (proved as `isInfluential_iff_sqrt_lt`). -/
def isInfluential (xRobot obs : Vec2) (RadiusOfInfluence : ℚ) : Bool :=
  decide (0 ≤ RadiusOfInfluence) &&
    decide (sqDist xRobot obs < RadiusOfInfluence ^ 2)

theorem sqrt_lt_iff_sq (d R : ℝ) (hd : 0 ≤ d) :
    Real.sqrt d < R ↔ 0 ≤ R ∧ d < R ^ 2 := by
  constructor
  · intro h
    have hR : 0 < R := lt_of_le_of_lt (Real.sqrt_nonneg d) h
    exact ⟨hR.le, (Real.sqrt_lt' hR).mp h⟩
  · rintro ⟨hR, hlt⟩
    rcases eq_or_lt_of_le hR with hR0 | hR0
    · exfalso
      rw [← hR0] at hlt
      simp at hlt
      exact absurd hlt (not_lt.mpr hd)
    · exact (Real.sqrt_lt' hR0).mpr hlt

/-- The squared-distance test used in the embedding agrees with the source's
`sqrt (sqDist) < RadiusOfInfluence` over the reals. -/
theorem isInfluential_iff_sqrt_lt (xRobot obs : Vec2) (R : ℚ) :
    isInfluential xRobot obs R = true ↔
      Real.sqrt ((sqDist xRobot obs : ℚ) : ℝ) < (R : ℝ) := by
  have hd : (0 : ℝ) ≤ ((sqDist xRobot obs : ℚ) : ℝ) := by
    exact_mod_cast sqDist_nonneg xRobot obs
  rw [sqrt_lt_iff_sq _ _ hd, isInfluential, Bool.and_eq_true,
    decide_eq_true_eq, decide_eq_true_eq]
  constructor
  · rintro ⟨h1, h2⟩
    exact ⟨by exact_mod_cast h1, by exact_mod_cast h2⟩
  · rintro ⟨h1, h2⟩
    exact ⟨by exact_mod_cast h1, by exact_mod_cast h2⟩

/-- `iInfluential = np.where(r < RadiusOfInfluence)[0]`: the (sorted) indices of the
obstacles whose distance to the robot is strictly below the radius of influence. -/
def iInfluential (xRobot : Vec2) (Map : List Vec2) (RadiusOfInfluence : ℚ) :
    List ℕ :=
  (List.range Map.length).filter fun i =>
    isInfluential xRobot (Map.getD i ⟨0, 0⟩) RadiusOfInfluence

/-- `repulsive_force` as shipped: it computes the influential subset and, when that
subset is nonempty, plots a marker over the influential obstacles (the returned plot
handle `hInfluentialObstacles` is modelled by the list of marked obstacle
coordinates, `none` when nothing is close).  In both branches `FRep = None`: the force
formula is left unimplemented, so `KObstacles` is never used. -/
def repulsive_force (xRobot : Vec2) (Map : List Vec2)
    (RadiusOfInfluence KObstacles : ℚ) : Option Vec2 × Option (List Vec2) :=
  let infl := iInfluential xRobot Map RadiusOfInfluence
  if 0 < infl.length then
    (none, some (infl.map fun i => Map.getD i ⟨0, 0⟩))
  else
    (none, none)

theorem repulsive_force_fst_none (xRobot : Vec2) (Map : List Vec2)
    (RadiusOfInfluence KObstacles : ℚ) :
    (repulsive_force xRobot Map RadiusOfInfluence KObstacles).1 = none := by
  simp only [repulsive_force]
  split <;> rfl

/-- Python runtime errors raised by the shipped code. -/
inductive PyError where
  | typeError
deriving DecidableEq, Repr

/-- `attractive_force` as shipped: `FAtt = None` followed by the in-place division
`FAtt /= None`, which raises `TypeError` (unsupported operands `NoneType / NoneType`)
on every call, before `return FAtt` is reached; both arguments are therefore unused
and no force value is ever produced. -/
def attractive_force (KGoal : ℚ) (GoalError : Vec2) : Except PyError Vec2 :=
  Except.error PyError.typeError

/-- Outcome of the `main` simulation loop.  The `while` condition is
`linalg.norm(GoalError) > 1 and k < nMaxSteps` (left-to-right short-circuit):
`reached` is exit because `norm(GoalError) ≤ 1` (checked first), `exhausted` is exit
because `k ≥ nMaxSteps` with the goal still away, and `error` is an uncaught Python
exception aborting the run during tick `k`. -/
inductive RunResult where
  | reached (xRobot : Vec2) (k : ℕ)
  | exhausted (xRobot : Vec2) (k : ℕ)
  | error (e : PyError) (k : ℕ)
deriving DecidableEq, Repr

/-- The norm comparison of the loop guard, on squared norms: over the reals,
`1 < Real.sqrt d ↔ 1 < d` for any `d`. -/
theorem sqNorm_gt_one_iff (v : Vec2) :
    (1 : ℝ) < Real.sqrt ((sqNorm v : ℚ) : ℝ) ↔ 1 < sqNorm v := by
  rw [Real.lt_sqrt (by norm_num : (0 : ℝ) ≤ 1), one_pow]
  exact_mod_cast Iff.rfl

/-- The simulation loop of `main`, parametrised by the externally supplied start and
goal positions (obtained via `plt.ginput`, out of scope) and the obstacle map.  The
guard `linalg.norm(GoalError) > 1` is embedded as `1 < sqNorm GoalError` (equivalent:
`sqNorm_gt_one_iff`).  When the body runs, `repulsive_force` is called first and
succeeds (its `FRep` component is `None`), then `attractive_force` raises `TypeError`;
were that call ever to return a value, the subsequent `FTotal = None` and
`xRobot += FTotal` would raise `TypeError` as well, so the body aborts the run in
every case, control never reaches the position/heading update or the next iteration,
and the loop needs no recursion. -/
def main_loop (xGoal : Vec2) (Map : List Vec2)
    (RadiusOfInfluence KGoal KObstacles : ℚ) (nMaxSteps : ℕ)
    (xRobot : Vec2) (k : ℕ) : RunResult :=
  let GoalError := xRobot - xGoal
  if 1 < sqNorm GoalError then
    if k < nMaxSteps then
      let _FRep := repulsive_force xRobot Map RadiusOfInfluence KObstacles
      match attractive_force KGoal GoalError with
      | Except.error e => RunResult.error e k
      | Except.ok _ => RunResult.error PyError.typeError k
    else
      RunResult.exhausted xRobot k
  else
    RunResult.reached xRobot k

/-- Claim C1 (behaviour of the shipped code at the notebook's worked example):
for the robot at (1,2), obstacles at (1.1,2.2), (2.4,1.4), (3.5,4.5), radius 2 and
gain 200, `repulsive_force` classifies exactly the first two obstacles (the ones at
distance strictly below 2) as influential — they are the marked obstacles in the
returned handle — but returns `None` for the total force instead of the value
≈ (−7117.98, −14205.83) documented in the notebook's expected-output cell: the force
formula is left unimplemented (`FRep = None`). -/
theorem repulsive_force_example_returns_none :
    repulsive_force ⟨1, 2⟩ [⟨11/10, 22/10⟩, ⟨24/10, 14/10⟩, ⟨35/10, 45/10⟩] 2 200
      = (none, some [⟨11/10, 22/10⟩, ⟨24/10, 14/10⟩]) := by
  have hr : List.range 3 = [0, 1, 2] := rfl
  norm_num [repulsive_force, iInfluential, isInfluential, sqDist, hr,
    List.filter_cons, List.filter_nil, List.getD_cons_zero, List.getD_cons_succ]

/-- Claim C2 (behaviour of the shipped code at the notebook's worked example):
`attractive_force` with Kgoal = 1.5 and GoalError = (2.3, 1.4) raises `TypeError`
(`FAtt /= None` on `FAtt = None`) instead of returning the value
≈ (−1.28130, −0.77992) documented in the notebook's expected-output cell. -/
theorem attractive_force_example_raises :
    attractive_force (3/2) ⟨23/10, 14/10⟩ = Except.error PyError.typeError := rfl

/-- Claim C3 (behaviour of the shipped code): with no obstacle strictly inside the
radius of influence, `repulsive_force` returns `None` for the force (together with a
`None` plot handle), not the zero vector the spec states. -/
theorem repulsive_force_no_influential_returns_none :
    repulsive_force ⟨0, 0⟩ [⟨10, 10⟩] 2 200 = (none, none) := by
  have hr : List.range 1 = [0] := rfl
  norm_num [repulsive_force, iInfluential, isInfluential, sqDist, hr,
    List.filter_cons, List.filter_nil, List.getD_cons_zero, List.getD_cons_succ]

/-- Claim C4: an obstacle whose distance to the robot is exactly
`RadiusOfInfluence` (that is, `sqDist = R ^ 2` with `0 ≤ R`) is not classified as
influential: the cutoff `r < RadiusOfInfluence` is a strict inequality, so no force
term is ever formed from such an obstacle. -/
theorem boundary_obstacle_not_influential (xRobot : Vec2) (Map : List Vec2)
    (R : ℚ) (i : ℕ) (hR : 0 ≤ R)
    (h : sqDist xRobot (Map.getD i ⟨0, 0⟩) = R ^ 2) :
    i ∉ iInfluential xRobot Map R := by
  intro hmem
  have hinf := (List.mem_filter.mp hmem).2
  rw [isInfluential, Bool.and_eq_true, decide_eq_true_eq, decide_eq_true_eq] at hinf
  exact absurd (h ▸ hinf.2) (lt_irrefl _)

/-- Witness for C4: the obstacle at (2,0) is at distance exactly 2 from the robot at
(0,0) and is not influential for radius 2. -/
theorem boundary_obstacle_not_influential_witness :
    (0 : ℚ) ≤ 2 ∧
      sqDist ⟨0, 0⟩ (([⟨2, 0⟩] : List Vec2).getD 0 ⟨0, 0⟩) = 2 ^ 2 ∧
      0 ∉ iInfluential ⟨0, 0⟩ [⟨2, 0⟩] 2 :=
  ⟨by norm_num, by norm_num [sqDist],
    boundary_obstacle_not_influential ⟨0, 0⟩ [⟨2, 0⟩] 2 0 (by norm_num)
      (by norm_num [sqDist])⟩

/-- Claim C5 (behaviour of the shipped code): started away from the goal (here at
(0,0) with the goal at (5,0)), the first tick of the `main` loop aborts with the
`TypeError` raised inside `attractive_force`; the run ends in an uncaught exception
at step 0, not in a `reached` or `exhausted` terminal status. -/
theorem main_loop_first_tick_raises :
    main_loop ⟨5, 0⟩ [] 10 1 250 300 ⟨0, 0⟩ 0
      = RunResult.error PyError.typeError 0 := by
  norm_num [main_loop, sqNorm, Vec2.sub_def, attractive_force]

/-- Claim C6: started exactly at the goal, the goal test (`norm(GoalError) > 1`
fails at `GoalError = 0`) is evaluated before any force computation, so the loop
exits immediately with the goal-reached status after zero ticks.  Since every
executed tick surfaces the `TypeError` of `attractive_force` as `RunResult.error`,
the `reached` result with `k = 0` also shows that `attractive_force` was never
invoked — in particular never with a zero-magnitude error vector. -/
theorem main_loop_at_goal_reached (xGoal : Vec2) (Map : List Vec2)
    (RadiusOfInfluence KGoal KObstacles : ℚ) (nMaxSteps : ℕ) :
    main_loop xGoal Map RadiusOfInfluence KGoal KObstacles nMaxSteps xGoal 0
      = RunResult.reached xGoal 0 := by
  simp [main_loop, sqNorm, Vec2.sub_def]

/-- Claim C7 (behaviour of the shipped code): on a non-terminal tick the loop never
reaches the `FTotal = FAtt + FRep` combination, the position update
`xRobot += FTotal` or the heading update `Theta = arctan2(...)`: `attractive_force`
raises `TypeError` first (and `FTotal` is in any case the placeholder `None`, not
`FAtt + FRep`), so the tick aborts the run. -/
theorem main_loop_no_total_force_update :
    main_loop ⟨0, 5⟩ [⟨100, 100⟩] 10 1 250 300 ⟨0, 0⟩ 0
      = RunResult.error PyError.typeError 0 := by
  norm_num [main_loop, sqNorm, Vec2.sub_def, attractive_force]

/-- Claim C8, counterexample to the claimed degenerate-distance policy: at the
degenerate input robot = obstacle = (1,1) (so r = 0), `repulsive_force` takes its
ordinary path — it classifies the coincident obstacle as influential (it is in the
marked-obstacle handle) and returns the same `None` force it returns on every call —
and `attractive_force` raises the very same `TypeError` on the degenerate zero error
as on a generic nonzero error: no detection, failure policy or clamping specific to
degenerate distances exists anywhere in the code. -/
theorem degenerate_inputs_ordinary_path :
    repulsive_force ⟨1, 1⟩ [⟨1, 1⟩] 2 200 = (none, some [⟨1, 1⟩]) ∧
    attractive_force (3/2) ⟨0, 0⟩ = Except.error PyError.typeError ∧
    attractive_force (3/2) ⟨1, 0⟩ = Except.error PyError.typeError := by
  refine ⟨?_, rfl, rfl⟩
  have hr : List.range 1 = [0] := rfl
  norm_num [repulsive_force, iInfluential, isInfluential, sqDist, hr,
    List.filter_cons, List.filter_nil, List.getD_cons_zero, List.getD_cons_succ]

/-- Claim C8 as amended: the shipped code has no degenerate-distance policy at all:
`attractive_force` fails identically on every input, degenerate or not; a robot
coincident with an obstacle is classified as an ordinary influential obstacle for any
positive radius; and the repulsive force returned is `None` on every input
whatsoever, so degenerate inputs are indistinguishable from ordinary ones. -/
theorem no_degenerate_policy (xRobot : Vec2) (Map : List Vec2)
    (R KObstacles KGoal : ℚ) (GoalError : Vec2) (hR : 0 < R) :
    attractive_force KGoal GoalError = Except.error PyError.typeError ∧
    isInfluential xRobot xRobot R = true ∧
    (repulsive_force xRobot Map R KObstacles).1 = none := by
  refine ⟨rfl, ?_, repulsive_force_fst_none xRobot Map R KObstacles⟩
  rw [isInfluential, Bool.and_eq_true, decide_eq_true_eq, decide_eq_true_eq,
    sqDist_self]
  exact ⟨hR.le, pow_pos hR 2⟩

/-- Witness for the amended C8, at radius 2 with the robot sitting on the first
obstacle. -/
theorem no_degenerate_policy_witness :
    attractive_force 1 ⟨3, 4⟩ = Except.error PyError.typeError ∧
    isInfluential ⟨5, 6⟩ ⟨5, 6⟩ 2 = true ∧
    (repulsive_force ⟨5, 6⟩ [⟨5, 6⟩, ⟨9, 9⟩] 2 7).1 = none :=
  no_degenerate_policy ⟨5, 6⟩ [⟨5, 6⟩, ⟨9, 9⟩] 2 7 1 ⟨3, 4⟩ (by norm_num)

/-- Claim C9: `repulsive_force` and `attractive_force` are deterministic pure
functions of their arguments: two calls with identical inputs yield identical results
(for the shipped `attractive_force`, deterministically the same raised `TypeError`);
no hidden state enters either computation. -/
theorem forces_deterministic (x1 x2 : Vec2) (M1 M2 : List Vec2)
    (R1 R2 K1 K2 g1 g2 : ℚ) (e1 e2 : Vec2)
    (hx : x1 = x2) (hM : M1 = M2) (hR : R1 = R2) (hK : K1 = K2)
    (hg : g1 = g2) (he : e1 = e2) :
    repulsive_force x1 M1 R1 K1 = repulsive_force x2 M2 R2 K2 ∧
    attractive_force g1 e1 = attractive_force g2 e2 := by
  subst hx; subst hM; subst hR; subst hK; subst hg; subst he
  exact ⟨rfl, rfl⟩

/-- Witness for C9 at concrete inputs. -/
theorem forces_deterministic_witness :
    repulsive_force ⟨1, 2⟩ [⟨3, 4⟩] 5 6 = repulsive_force ⟨1, 2⟩ [⟨3, 4⟩] 5 6 ∧
    attractive_force 7 ⟨8, 9⟩ = attractive_force 7 ⟨8, 9⟩ :=
  forces_deterministic ⟨1, 2⟩ ⟨1, 2⟩ [⟨3, 4⟩] [⟨3, 4⟩] 5 5 6 6 7 7 ⟨8, 9⟩ ⟨8, 9⟩
    rfl rfl rfl rfl rfl rfl

/-- Claim C10: `attractive_force` as implemented never returns a force value: it sets
`FAtt = None` and then executes the in-place division `FAtt /= None`, which raises
`TypeError` on every invocation, for every gain and every goal-error vector, before
the `return` statement is reached. -/
theorem attractive_force_always_typeerror (KGoal : ℚ) (GoalError : Vec2) :
    attractive_force KGoal GoalError = Except.error PyError.typeError := rfl
